import Mathlib

/-!
# Verification of the SPY-AI appointment scheduling core

Shallow embedding of the scheduling logic of the SPY-AI spa-automation
repository: the booking admission endpoint (`create_booking`), the booking
lookup (`get_booking`) and the slot listing (`get_available_slots`) from
`src/api/routes/booking.py`, together with the configuration data from
`src/core/config.py` and the persistent data model from
`src/core/database.py`.

## Representation conventions

* A time of day ("HH:MM" string in the source) is a number of minutes since
  midnight (`Nat`, < 1440 for every string produced by `strftime("%H:%M")`
  or accepted by `strptime("%H:%M")`).  Comparison of two zero-padded
  "HH:MM" strings is lexicographic in SQL and in Python, which coincides
  with numeric comparison of the minute values, so string comparisons in the
  source become `≤`/`<` on `Nat` here.
* A calendar date is a day index (`Nat`, days since 1970-01-01, which was a
  Thursday; `weekdayOf` reproduces `strftime("%A")` on that representation).
* A Python `datetime` is an absolute number of minutes,
  `dayIndex * 1440 + minuteOfDay`.
* The SQLAlchemy session is a `List Booking` (the `bookings` table in
  insertion order; the autoincrement primary key of the n-th inserted row is
  n).  A query is a `find?`/`filter` over that list.
* `uuid.uuid4()` is modelled by its entropy: `str(uuid.uuid4())` consists of
  32 lowercase hexadecimal digits with dashes at positions 8, 13, 18 and 23,
  so its first 8 characters are the first 8 hexadecimal digits; the model
  receives the digit sequence (each < 16) as an explicit argument.
* Floating-point service prices are never computed with, only copied, so
  they are represented as rationals.
-/

namespace Spa

/-- Booking status.  `src/core/database.py` line 24:
`status = Column(String, default="confirmed")  # confirmed, completed, cancelled`;
the specification additionally names a `pending` placeholder state. -/
inductive BStatus
  | pending
  | confirmed
  | completed
  | cancelled
deriving DecidableEq

/-- A row of the `services` table (`src/core/database.py` lines 44-54).
The autoincrement `id` and `created_at` columns are never read by the
scheduling code and are omitted. -/
structure Service where
  name : String
  description : String
  duration : Nat       -- minutes
  price : ℚ
  category : String
  is_active : Bool
deriving DecidableEq

/-- A row of the `bookings` table (`src/core/database.py` lines 12-28).
`appointment_date` is a `DateTime` column; `create_booking` stores the full
appointment datetime in it (`src/api/routes/booking.py` line 100), so it is
an absolute minute count here.  `appointment_time` is the "HH:MM" string
column, i.e. a minute-of-day.  `updated_at` duplicates `created_at` until a
row is mutated and is read nowhere; it is omitted.
`google_calendar_event_id` is only assigned by the best-effort external
calendar call after the insert (wrapped in `try`, `booking.py` lines
134-145), which is external I/O outside this embedding; it stays `none`. -/
structure Booking where
  id : Nat
  client_name : String
  client_email : String
  client_phone : String
  service_name : String
  service_duration : Nat
  appointment_date : Nat       -- stored DateTime, absolute minutes
  appointment_time : Nat       -- stored "HH:MM", minutes since midnight
  total_price : ℚ
  status : BStatus
  special_requests : Option String
  google_calendar_event_id : Option String
  created_at : Nat             -- datetime.utcnow at insert, absolute minutes
deriving DecidableEq

/-- Day of week. -/
inductive Weekday
  | monday | tuesday | wednesday | thursday | friday | saturday | sunday
deriving DecidableEq

/-- `appointment_datetime.strftime("%A").lower()` on the day-index
representation: day 0 = 1970-01-01 was a Thursday. -/
def weekdayOf (d : Nat) : Weekday :=
  match d % 7 with
  | 0 => .thursday
  | 1 => .friday
  | 2 => .saturday
  | 3 => .sunday
  | 4 => .monday
  | 5 => .tuesday
  | _ => .wednesday

/-- `settings.business_hours` (`src/core/config.py` lines 30-38), with
"HH:MM" strings as minutes.  The dictionary contains all seven weekdays, so
the lookup never fails; the `Option` mirrors the
`day_of_week not in settings.business_hours` membership test. -/
def business_hours : Weekday → Option (Nat × Nat)
  | .monday    => some (540, 1200)   -- 09:00 - 20:00
  | .tuesday   => some (540, 1200)
  | .wednesday => some (540, 1200)
  | .thursday  => some (540, 1200)
  | .friday    => some (540, 1200)
  | .saturday  => some (600, 1080)   -- 10:00 - 18:00
  | .sunday    => some (600, 960)    -- 10:00 - 16:00

/-- `settings.buffer_time` (`src/core/config.py` line 42), default 15. -/
def buffer_time : Nat := 15

/-- The lowercase hexadecimal digit character for `n` (`n < 16`);
`str(uuid.uuid4())` renders its digits with this alphabet. -/
def hexChar (n : Nat) : Char :=
  match n with
  | 0 => '0' | 1 => '1' | 2 => '2' | 3 => '3' | 4 => '4'
  | 5 => '5' | 6 => '6' | 7 => '7' | 8 => '8' | 9 => '9'
  | 10 => 'a' | 11 => 'b' | 12 => 'c' | 13 => 'd' | 14 => 'e'
  | _ => 'f'

/-- `str(uuid.uuid4())[:8].upper()` (`src/api/routes/booking.py` line 92):
the first 8 of the UUID's 32 hexadecimal digits (the first dash comes only
at position 8), uppercased. -/
def confirmationCode (uuidHex : List Nat) : String :=
  ⟨((uuidHex.take 8).map hexChar).map Char.toUpper⟩

/-- The parsed body of `POST /book` (`BookingRequest`,
`src/api/routes/booking.py` lines 16-23), after the `strptime` parse of
`appointment_date`/`appointment_time` (lines 51-57) has succeeded:
`appointment_date` is the day index and `appointment_time` the minute of
day (`strptime("%H:%M")` guarantees it is < 1440). -/
structure BookingRequest where
  client_name : String
  client_email : String
  client_phone : String
  service_name : String
  appointment_date : Nat
  appointment_time : Nat
  special_requests : Option String
deriving DecidableEq

/-- The success payload of `POST /book` (`BookingResponse`,
`src/api/routes/booking.py` lines 25-31). -/
structure BookingResponse where
  booking_id : Nat
  confirmation_code : String
  appointment_datetime : Nat   -- isoformat of the appointment datetime
  service_name : String
  total_price : ℚ
  status : BStatus
deriving DecidableEq

/-- Outcome of `create_booking`: each `HTTPException` branch of
`src/api/routes/booking.py` lines 47-89 as a distinct value, or the
response.  (The date/time parse error branch, line 57, is unreachable here
because requests carry already-parsed values.) -/
inductive AdmitResult
  | serviceNotFound           -- 404 "Service not found"
  | pastOrPresent             -- 400 "Appointment must be in the future"
  | closedDay                 -- 400 "Spa is closed on this day"
  | outsideHours              -- 400 "Spa is open from ... to ..."
  | conflict                  -- 409 "Time slot is already booked"
  | booked (resp : BookingResponse)
deriving DecidableEq

def AdmitResult.isBooked : AdmitResult → Bool
  | .booked _ => true
  | _ => false

def AdmitResult.isConflict : AdmitResult → Bool
  | .conflict => true
  | _ => false

/-- The service query of `create_booking` and `get_available_slots`
(`src/api/routes/booking.py` lines 42-45 and 190-193):
`db.query(Service).filter(Service.name == name, Service.is_active == True).first()`. -/
def findService (services : List Service) (name : String) : Option Service :=
  services.find? fun s => decide (s.name = name ∧ s.is_active = true)

/-- `create_booking` (`src/api/routes/booking.py` lines 33-160).

Arguments: the `services` table, the `bookings` table (the mutable ledger),
`now` = `datetime.now()` in absolute minutes, the UUID entropy for the
confirmation code, and the parsed request.  Returns the HTTP outcome and
the `bookings` table after the call.

The conflict query (lines 79-86) deserves care.  It filters on
`Booking.appointment_date == appointment_datetime.date()`, but the
`appointment_date` column holds the value stored at line 100 - the *full*
appointment datetime, time of day included.  The database is SQLite
(`sqlite:///...`, `src/core/config.py` line 23), where a `DateTime` column
stores the string "YYYY-MM-DD HH:MM:SS.ffffff" and a bound `datetime.date`
is rendered as midnight of that day, "YYYY-MM-DD 00:00:00.000000"; the
equality therefore holds only for a row whose stored datetime is exactly
midnight.  (Under plain Python semantics the filter would be emptier still:
`datetime == date` is never true.)  In this representation the bound date is
`appointment_date * 1440` and the stored column value is the absolute
minute count.

`Booking.appointment_time.between(lo, hi)` is SQL `BETWEEN`, inclusive at
both endpoints, on "HH:MM" strings, i.e. `lo ≤ t ∧ t ≤ hi` on minute
values; `hi` is `end_time.strftime("%H:%M")`, the end datetime's time of
day, i.e. `(start + duration) % 1440`.

The inserted row takes the `status` column default `"confirmed"`
(`src/core/database.py` line 24) and `created_at = datetime.utcnow()`.
The post-insert calendar/sheet calls (lines 133-151) are best-effort
external I/O and do not change the embedded state. -/
def create_booking (services : List Service) (ledger : List Booking)
    (now : Nat) (uuidHex : List Nat) (req : BookingRequest) :
    AdmitResult × List Booking :=
  match findService services req.service_name with
  | none => (.serviceNotFound, ledger)
  | some service =>
    -- appointment_datetime
    let appt : Nat := req.appointment_date * 1440 + req.appointment_time
    if appt ≤ now then (.pastOrPresent, ledger)
    else
      match business_hours (weekdayOf req.appointment_date) with
      | none => (.closedDay, ledger)
      | some (openT, closeT) =>
        if req.appointment_time < openT ∨ closeT < req.appointment_time then
          (.outsideHours, ledger)
        else
          -- end_time = appointment_datetime + timedelta(minutes=service.duration)
          let endHHMM : Nat := (req.appointment_time + service.duration) % 1440
          let conflicting : Option Booking := ledger.find? fun b =>
            decide (b.appointment_date = req.appointment_date * 1440 ∧
                    b.status = .confirmed ∧
                    req.appointment_time ≤ b.appointment_time ∧
                    b.appointment_time ≤ endHHMM)
          match conflicting with
          | some _ => (.conflict, ledger)
          | none =>
            let code := confirmationCode uuidHex
            let booking : Booking :=
              { id := ledger.length + 1
                client_name := req.client_name
                client_email := req.client_email
                client_phone := req.client_phone
                service_name := service.name
                service_duration := service.duration
                appointment_date := appt
                appointment_time := req.appointment_time
                total_price := service.price
                status := .confirmed
                special_requests := req.special_requests
                google_calendar_event_id := none
                created_at := now }
            (.booked
              { booking_id := booking.id
                confirmation_code := code
                appointment_datetime := appt
                service_name := service.name
                total_price := service.price
                status := booking.status },
             ledger ++ [booking])

/-- The time-of-day walk shared by both loops of `get_available_slots`
(`src/api/routes/booking.py` lines 230-236 and 253-260):
`while current < e: yield current; current += 15` on minute-of-day values.
The source advances with `datetime.combine(datetime.min, t) + 15 minutes`,
which would wrap at midnight; a wrap inside the loop needs `e > 1425`, which
no configured closing time (≤ 1200 = 20:00) reaches, so the walk is the
plain 15-minute climb.  Structural fuel: the walk takes at most
`⌈(e-s)/15⌉ ≤ e` steps, so fuel `e` is enough. -/
def gridPointsAux : Nat → Nat → Nat → List Nat
  | 0, _, _ => []
  | fuel + 1, s, e => if s < e then s :: gridPointsAux fuel (s + 15) e else []

def gridPoints15 (s e : Nat) : List Nat := gridPointsAux e s e

/-- `booked_times` (`src/api/routes/booking.py` lines 215-236): the set of
"HH:MM" strings covered, at 15-minute steps from each booking's start, by
the bookings returned by the query
`filter(Booking.appointment_date == target_date, Booking.status == "confirmed")`.
As in `create_booking`'s conflict query, the `appointment_date` column holds
the full stored datetime while the bound `target_date` renders as midnight
(`target_date * 1440`), so only a midnight-stored row can match.
`booking_end` is `(start + service_duration)` as a time of day, i.e. mod
1440.  The Python `set` is a list here; only membership is ever used. -/
def bookedTimes (ledger : List Booking) (dateIdx : Nat) : List Nat :=
  ((ledger.filter fun b =>
      decide (b.appointment_date = dateIdx * 1440 ∧ b.status = .confirmed)).map
    fun b =>
      gridPoints15 b.appointment_time
        ((b.appointment_time + b.service_duration) % 1440)).flatten

/-- The candidate loop of `get_available_slots`
(`src/api/routes/booking.py` lines 239-268):
starting from `open`, while `current ≤ close`: compute
`slot_end = current + duration` (a time of day, mod 1440); if
`slot_end ≤ close` and no 15-minute check point of
`[current, slot_end)` is booked, emit `current`; advance by
`buffer_time + 15` minutes.  The advance would also wrap at midnight, but
the loop stops once `current > close ≤ 1200`, so `current ≤ 1230 < 1440`
throughout.  Structural fuel: the loop runs at most
`⌊(close - current)/30⌋ + 1 ≤ close + 1` times. -/
def slotLoopAux : Nat → Nat → Nat → Nat → List Nat → List Nat
  | 0, _, _, _, _ => []
  | fuel + 1, cur, closeT, dur, booked =>
    if cur ≤ closeT then
      let slotEnd := (cur + dur) % 1440
      let rest := slotLoopAux fuel (cur + (buffer_time + 15)) closeT dur booked
      if slotEnd ≤ closeT ∧
          (gridPoints15 cur slotEnd).all (fun t => !(booked.contains t)) then
        cur :: rest
      else rest
    else []

def slotLoop (cur closeT dur : Nat) (booked : List Nat) : List Nat :=
  slotLoopAux (closeT + 1) cur closeT dur booked

/-- `get_available_slots` (`src/api/routes/booking.py` lines 181-270).
`none` is the 404 "Service not found"; a closed weekday would return the
empty list (lines 206-207), though every weekday is present in
`settings.business_hours`.  The invalid-date-format 400 branch is
unreachable here because the date arrives parsed. -/
def get_available_slots (services : List Service) (ledger : List Booking)
    (dateIdx : Nat) (service_name : String) : Option (List Nat) :=
  match findService services service_name with
  | none => none
  | some service =>
    match business_hours (weekdayOf dateIdx) with
    | none => some []
    | some (openT, closeT) =>
      some (slotLoop openT closeT service.duration (bookedTimes ledger dateIdx))

/-- The seven default services seeded by `init_db`
(`src/core/database.py` lines 91-141); `is_active` takes its column default
`True`. -/
def defaultServices : List Service :=
  [ { name := "Swedish Massage"
      description := "Relaxing full-body massage using long, flowing strokes"
      duration := 60, price := 80, category := "massage", is_active := true }
  , { name := "Deep Tissue Massage"
      description := "Therapeutic massage targeting deep muscle layers"
      duration := 60, price := 90, category := "massage", is_active := true }
  , { name := "Hot Stone Massage"
      description := "Massage with heated stones for ultimate relaxation"
      duration := 75, price := 110, category := "massage", is_active := true }
  , { name := "Classic Facial"
      description := "Cleansing, exfoliating, and nourishing facial treatment"
      duration := 60, price := 70, category := "facial", is_active := true }
  , { name := "Anti-Aging Facial"
      description := "Advanced facial with anti-aging ingredients"
      duration := 75, price := 95, category := "facial", is_active := true }
  , { name := "Body Scrub"
      description := "Exfoliating body treatment with natural ingredients"
      duration := 45, price := 65, category := "body_treatment", is_active := true }
  , { name := "Aromatherapy Session"
      description := "Therapeutic session using essential oils"
      duration := 60, price := 85, category := "wellness", is_active := true } ]

/-- Outcome of the lifecycle operation `updateStatus`. -/
inductive UpdateResult
  | ok (b : Booking)
  | notFound
  | invalidTransition
deriving DecidableEq

/-- Modelled from the spec: the repository contains no booking lifecycle
operation - no route or service mutates `Booking.status`; `database.py`
only declares the column with its comment "confirmed, completed, cancelled".
Spec section 4.5 defines the legal moves: `pending → confirmed` (admit),
`confirmed → completed`, `confirmed → cancelled`, and any state except
`completed` may move to `cancelled`; `completed` and `cancelled` are
terminal and no transition returns a terminal state to `confirmed`. -/
def allowed_transition : BStatus → BStatus → Bool
  | .pending, .confirmed => true
  | .confirmed, .completed => true
  | .confirmed, .cancelled => true
  | .pending, .cancelled => true
  | _, _ => false

/-- Modelled from the spec: `updateStatus(bookingId, newStatus) →
success | notFound` (spec section 6), returning `InvalidTransition` on an
illegal lifecycle move (spec sections 4.5 and 7). -/
def update_status (ledger : List Booking) (booking_id : Nat)
    (newStatus : BStatus) : UpdateResult :=
  match ledger.find? fun b => decide (b.id = booking_id) with
  | none => .notFound
  | some b =>
    if allowed_transition b.status newStatus then .ok { b with status := newStatus }
    else .invalidTransition

/-- The dictionary returned by `GET /bookings/{id}`
(`src/api/routes/booking.py` lines 169-179): exactly the nine keys of that
literal, nothing else - in particular no confirmation code. -/
structure GetBookingView where
  id : Nat
  client_name : String
  client_email : String
  service_name : String
  appointment_date : Nat       -- isoformat of the stored datetime
  appointment_time : Nat
  total_price : ℚ
  status : BStatus
  created_at : Nat
deriving DecidableEq

/-- `get_booking` (`src/api/routes/booking.py` lines 162-179); `none` is the
404 branch. -/
def get_booking (ledger : List Booking) (booking_id : Nat) :
    Option GetBookingView :=
  (ledger.find? fun b => decide (b.id = booking_id)).map fun b =>
    { id := b.id
      client_name := b.client_name
      client_email := b.client_email
      service_name := b.service_name
      appointment_date := b.appointment_date
      appointment_time := b.appointment_time
      total_price := b.total_price
      status := b.status
      created_at := b.created_at }

/-- The `status` field of a successful admit response. -/
def AdmitResult.respStatus : AdmitResult → Option BStatus
  | .booked r => some r.status
  | _ => none

/-- The `confirmation_code` field of a successful admit response. -/
def AdmitResult.respCode : AdmitResult → Option String
  | .booked r => some r.confirmation_code
  | _ => none

/-- Sample UUID entropy for concrete runs (any 8-or-more hexadecimal digits;
`uuid.uuid4()` supplies 32). -/
def sampleUuidHex : List Nat :=
  [0, 1, 2, 3, 4, 5, 6, 7, 8, 9, 10, 11, 12, 13, 14, 15]

/-- A concrete `POST /book` request for a Swedish Massage (60 minutes) on
day 4 = 1970-01-05, a Monday (hours 09:00-20:00), at minute-of-day `t`. -/
def monReq (t : Nat) : BookingRequest :=
  { client_name := "Ada Lovelace"
    client_email := "ada@example.com"
    client_phone := "+1 (555) 000-0001"
    service_name := "Swedish Massage"
    appointment_date := 4
    appointment_time := t
    special_requests := none }

/-- The ledger after a single successful admit of `monReq 600`
(Monday 10:00-11:00, Swedish Massage) against the empty ledger. -/
def ledgerWith1000 : List Booking :=
  (create_booking defaultServices [] 0 sampleUuidHex (monReq 600)).2

/-- The booking row that the admit of `monReq 600` inserts (the sole element
of `ledgerWith1000`). -/
def monBooking1000 : Booking :=
  { id := 1
    client_name := "Ada Lovelace"
    client_email := "ada@example.com"
    client_phone := "+1 (555) 000-0001"
    service_name := "Swedish Massage"
    service_duration := 60
    appointment_date := 4 * 1440 + 600
    appointment_time := 600
    total_price := 80
    status := .confirmed
    special_requests := none
    google_calendar_event_id := none
    created_at := 0 }

/-- The ledger after a single successful admit of `monReq 605`
(Monday 10:05-11:05) against the empty ledger. -/
def ledgerWith1005 : List Booking :=
  (create_booking defaultServices [] 0 sampleUuidHex (monReq 605)).2

/-- The ledger after serially admitting `monReq 600` and then `monReq 615`
(Monday 10:00-11:00 and 10:15-11:15). -/
def ledgerTwoOverlaps : List Booking :=
  (create_booking defaultServices ledgerWith1000 0 sampleUuidHex (monReq 615)).2

/-- The ledger after serially admitting `monReq 600`, `monReq 615` and
`monReq 630` (three pairwise-overlapping hour-long appointments). -/
def ledgerThreeOverlaps : List Booking :=
  (create_booking defaultServices ledgerTwoOverlaps 0 sampleUuidHex (monReq 630)).2

/-- A completed booking on Monday 13:00-14:00, for lifecycle tests. -/
def completedBooking : Booking :=
  { id := 1
    client_name := "Grace Hopper"
    client_email := "grace@example.com"
    client_phone := "+1 (555) 000-0002"
    service_name := "Classic Facial"
    service_duration := 60
    appointment_date := 4 * 1440 + 780
    appointment_time := 780
    total_price := 70
    status := .completed
    special_requests := none
    google_calendar_event_id := none
    created_at := 0 }

/-! ## General lemmas about admission -/

/-- No booking row whose stored `appointment_date` datetime is not exactly
midnight can satisfy the conflict query's date filter (the bound date
renders as midnight), so the query returns no row. -/
lemma conflict_query_none (ledger : List Booking) (d t e : Nat)
    (hwf : ∀ x ∈ ledger, x.appointment_date % 1440 ≠ 0) :
    (ledger.find? fun b =>
      decide (b.appointment_date = d * 1440 ∧ b.status = .confirmed ∧
              t ≤ b.appointment_time ∧ b.appointment_time ≤ e)) = none := by
  refine List.find?_eq_none.mpr fun x hx h => ?_
  have hdate : x.appointment_date = d * 1440 := (of_decide_eq_true h).1
  exact hwf x hx (by rw [hdate]; omega)

/-- Characterization of a successful admission: if the service resolves,
the appointment is strictly in the future, the start time passes the
source's business-hours test (`open ≤ start ≤ close`), and every ledger row
stores a non-midnight appointment datetime (true of every row the system
itself inserts, since admitted start times are at least the opening time),
then `create_booking` inserts a confirmed row and returns the response,
irrespective of any overlap. -/
lemma admit_success (services : List Service) (ledger : List Booking)
    (now : Nat) (u : List Nat) (req : BookingRequest) (sv : Service)
    (o c : Nat)
    (hsv : findService services req.service_name = some sv)
    (hfut : now < req.appointment_date * 1440 + req.appointment_time)
    (hbh : business_hours (weekdayOf req.appointment_date) = some (o, c))
    (ho : o ≤ req.appointment_time) (hc : req.appointment_time ≤ c)
    (hwf : ∀ x ∈ ledger, x.appointment_date % 1440 ≠ 0) :
    create_booking services ledger now u req =
      (.booked
        { booking_id := ledger.length + 1
          confirmation_code := confirmationCode u
          appointment_datetime := req.appointment_date * 1440 + req.appointment_time
          service_name := sv.name
          total_price := sv.price
          status := .confirmed },
       ledger ++
        [{ id := ledger.length + 1
           client_name := req.client_name
           client_email := req.client_email
           client_phone := req.client_phone
           service_name := sv.name
           service_duration := sv.duration
           appointment_date := req.appointment_date * 1440 + req.appointment_time
           appointment_time := req.appointment_time
           total_price := sv.price
           status := .confirmed
           special_requests := req.special_requests
           google_calendar_event_id := none
           created_at := now }]) := by
  have hfind := conflict_query_none ledger req.appointment_date
    req.appointment_time ((req.appointment_time + sv.duration) % 1440) hwf
  simp only [create_booking, hsv, hbh, hfind, Nat.not_le.mpr hfut, if_false,
    if_neg (by omega : ¬(req.appointment_time < o ∨ c < req.appointment_time))]

/-! ## General lemmas about the slot generator (empty ledger) -/

/-- With no booked times, every candidate's availability scan succeeds. -/
lemma grid_all_free (a b : Nat) :
    ((gridPoints15 a b).all fun t => !(([] : List Nat).contains t)) = true := by
  simp [List.all_eq_true]

/-- The candidate loop emits nothing once the cursor has passed closing. -/
lemma slotLoopAux_nil_of_closed (fuel cur closeT dur : Nat) (h : closeT < cur) :
    slotLoopAux fuel cur closeT dur [] = [] := by
  cases fuel with
  | zero => rfl
  | succ fuel => simp [slotLoopAux, Nat.not_le.mpr h]

/-- Once a candidate's end passes closing, so do all later candidates', and
the loop emits nothing more (no-wrap bound: `closeT + dur < 1440`). -/
lemma slotLoopAux_nil_of_end_late (fuel : Nat) (closeT dur : Nat)
    (hnw : closeT + dur < 1440) :
    ∀ cur, closeT < cur + dur → slotLoopAux fuel cur closeT dur [] = [] := by
  induction fuel with
  | zero => intro cur _; rfl
  | succ fuel ih =>
    intro cur hlate
    by_cases hcur : cur ≤ closeT
    · have hmod : (cur + dur) % 1440 = cur + dur := Nat.mod_eq_of_lt (by omega)
      simp only [slotLoopAux, if_pos hcur, hmod,
        if_neg (by simp [Nat.not_le.mpr hlate] :
          ¬(cur + dur ≤ closeT ∧
            ((gridPoints15 cur (cur + dur)).all fun t =>
              !(([] : List Nat).contains t)) = true))]
      exact ih (cur + (buffer_time + 15)) (by omega)
    · exact slotLoopAux_nil_of_closed _ _ _ _ (Nat.not_le.mp hcur)

/-- A candidate that fits emits itself and continues 30 minutes later. -/
lemma slotLoopAux_cons (fuel cur closeT dur : Nat)
    (hnw : closeT + dur < 1440) (hfit : cur + dur ≤ closeT) :
    slotLoopAux (fuel + 1) cur closeT dur [] =
      cur :: slotLoopAux fuel (cur + (buffer_time + 15)) closeT dur [] := by
  have hmod : (cur + dur) % 1440 = cur + dur := Nat.mod_eq_of_lt (by omega)
  simp only [slotLoopAux, if_pos (by omega : cur ≤ closeT), hmod,
    if_pos (And.intro hfit (grid_all_free _ _))]

/-- Membership in the loop's output, for fuel large enough to walk from the
cursor to closing: exactly the 30-minute grid points whose service interval
ends by closing. -/
lemma slotLoopAux_mem (closeT dur : Nat) (hnw : closeT + dur < 1440) :
    ∀ fuel cur, closeT + 1 ≤ fuel + cur →
      ∀ t, t ∈ slotLoopAux fuel cur closeT dur [] ↔
        ∃ k, t = cur + 30 * k ∧ t + dur ≤ closeT := by
  intro fuel
  induction fuel with
  | zero =>
    intro cur hfuel t
    simp only [slotLoopAux, List.not_mem_nil, false_iff]
    rintro ⟨k, rfl, hend⟩
    omega
  | succ fuel ih =>
    intro cur hfuel t
    by_cases hcur : cur ≤ closeT
    · by_cases hfit : cur + dur ≤ closeT
      · rw [slotLoopAux_cons fuel cur closeT dur hnw hfit, List.mem_cons,
          ih (cur + (buffer_time + 15)) (by simp [buffer_time]; omega) t]
        constructor
        · rintro (rfl | ⟨k, rfl, hend⟩)
          · exact ⟨0, by omega, by omega⟩
          · exact ⟨k + 1, by simp [buffer_time]; ring, hend⟩
        · rintro ⟨k, rfl, hend⟩
          cases k with
          | zero => exact Or.inl (by omega)
          | succ k => exact Or.inr ⟨k, by simp [buffer_time]; ring, hend⟩
      · rw [slotLoopAux_nil_of_end_late (fuel + 1) closeT dur hnw cur (by omega)]
        simp only [List.not_mem_nil, false_iff]
        rintro ⟨k, rfl, hend⟩
        omega
    · rw [slotLoopAux_nil_of_closed _ _ _ _ (Nat.not_le.mp hcur)]
      simp only [List.not_mem_nil, false_iff]
      rintro ⟨k, rfl, hend⟩
      omega

/-- The head of the loop's output, when there is one, is the cursor itself
(with no booked times nothing before the first fitting candidate is
skipped: if the cursor does not fit, nothing later fits either). -/
lemma slotLoopAux_head (closeT dur : Nat) (hnw : closeT + dur < 1440) :
    ∀ fuel cur t,
      (slotLoopAux fuel cur closeT dur []).head? = some t → t = cur := by
  intro fuel cur t h
  cases fuel with
  | zero => simp [slotLoopAux] at h
  | succ fuel =>
    by_cases hcur : cur ≤ closeT
    · by_cases hfit : cur + dur ≤ closeT
      · rw [slotLoopAux_cons fuel cur closeT dur hnw hfit] at h
        simpa using h.symm
      · rw [slotLoopAux_nil_of_end_late (fuel + 1) closeT dur hnw cur
          (by omega)] at h
        simp at h
    · rw [slotLoopAux_nil_of_closed _ _ _ _ (Nat.not_le.mp hcur)] at h
      simp at h

/-- Consecutive emitted slots are exactly 30 minutes apart. -/
lemma slotLoopAux_chain (closeT dur : Nat) (hnw : closeT + dur < 1440) :
    ∀ fuel cur,
      List.Chain' (fun a b => b = a + 30)
        (slotLoopAux fuel cur closeT dur []) := by
  intro fuel
  induction fuel with
  | zero => intro cur; simp [slotLoopAux]
  | succ fuel ih =>
    intro cur
    by_cases hcur : cur ≤ closeT
    · by_cases hfit : cur + dur ≤ closeT
      · rw [slotLoopAux_cons fuel cur closeT dur hnw hfit]
        refine List.chain'_cons'.mpr ⟨fun y hy => ?_, ih _⟩
        have := slotLoopAux_head closeT dur hnw fuel (cur + (buffer_time + 15)) y hy
        simp [buffer_time] at this ⊢
        omega
      · rw [slotLoopAux_nil_of_end_late (fuel + 1) closeT dur hnw cur (by omega)]
        exact List.chain'_nil
    · rw [slotLoopAux_nil_of_closed _ _ _ _ (Nat.not_le.mp hcur)]
      exact List.chain'_nil

/-! ## General lemmas about the confirmation code -/

/-- With at least 8 entropy digits (a UUID has 32) the code has exactly 8
characters. -/
lemma confirmationCode_length (u : List Nat) (h8 : 8 ≤ u.length) :
    (confirmationCode u).length = 8 := by
  simp only [confirmationCode, String.length, List.length_map, List.length_take]
  omega

/-- Every character of the code is an uppercase hexadecimal digit, hence
alphanumeric. -/
lemma confirmationCode_alnum (u : List Nat) (hu : ∀ x ∈ u, x < 16) :
    ((confirmationCode u).toList.all Char.isAlphanum) = true := by
  simp only [confirmationCode, String.toList, List.all_eq_true, List.mem_map]
  rintro ch ⟨c, ⟨x, hx, rfl⟩, rfl⟩
  have hx16 : x < 16 := hu x (List.mem_of_mem_take hx)
  interval_cases x <;> decide

/-! ## Claims -/

/-- C1: the claim says an admit request whose half-open interval overlaps a
non-cancelled booking on the same date must be rejected with `Conflict`.
The code does not do this.  Concrete run: a confirmed Monday 10:00-11:00
booking (minute 600, duration 60) exists, admitted by the system itself;
the request for Monday 10:30-11:30 (minute 630) overlaps it under the
half-open test, yet `create_booking` admits it and the ledger grows to two
rows.  (The conflict query's date filter compares the stored appointment
datetime against the bare date, which binds as midnight, so it matches no
row; and even with a date match its inclusive BETWEEN test only catches
bookings starting inside [630, 690] and would still miss this one.) -/
theorem C1_overlap_admitted_not_conflict :
    ledgerWith1000.map
        (fun b => (b.appointment_date / 1440, b.appointment_time,
                   b.service_duration, b.status))
      = [(4, 600, 60, BStatus.confirmed)] ∧
    (600 < 630 + 60 ∧ 630 < 600 + 60) ∧
    (create_booking defaultServices ledgerWith1000 0 sampleUuidHex
        (monReq 630)).1.isConflict = false ∧
    (create_booking defaultServices ledgerWith1000 0 sampleUuidHex
        (monReq 630)).1.isBooked = true ∧
    (create_booking defaultServices ledgerWith1000 0 sampleUuidHex
        (monReq 630)).2.length = 2 := by
  decide

/-- C2: an admit request exactly abutting an existing booking's interval,
which passes the service, future-time and business-hours checks, succeeds.
This holds: on any ledger whose rows were inserted by the system itself
(every stored appointment datetime has a non-midnight time of day, since
admitted start times are at least the 09:00/10:00 opening), the conflict
query matches nothing, so the abutting request is admitted. -/
theorem C2_abutting_request_admitted (services : List Service)
    (ledger : List Booking) (now : Nat) (u : List Nat) (req : BookingRequest)
    (sv : Service) (b : Booking) (o c : Nat)
    (hsv : findService services req.service_name = some sv)
    (hfut : now < req.appointment_date * 1440 + req.appointment_time)
    (hbh : business_hours (weekdayOf req.appointment_date) = some (o, c))
    (ho : o ≤ req.appointment_time) (hc : req.appointment_time ≤ c)
    (hwf : ∀ x ∈ ledger, x.appointment_date % 1440 ≠ 0)
    (hb : b ∈ ledger) (hbconf : b.status = .confirmed)
    (hbdate : b.appointment_date =
      req.appointment_date * 1440 + b.appointment_time)
    (habut : req.appointment_time + sv.duration = b.appointment_time ∨
             b.appointment_time + b.service_duration = req.appointment_time) :
    (create_booking services ledger now u req).1.isBooked = true := by
  rw [admit_success services ledger now u req sv o c hsv hfut hbh ho hc hwf]
  rfl

/-- Witness for C2: Monday 09:00-10:00 request abutting the system-admitted
Monday 10:00-11:00 booking (request end = booking start) is admitted. -/
theorem C2_witness :
    (create_booking defaultServices ledgerWith1000 0 sampleUuidHex
      (monReq 540)).1.isBooked = true :=
  C2_abutting_request_admitted defaultServices ledgerWith1000 0 sampleUuidHex
    (monReq 540)
    { name := "Swedish Massage"
      description := "Relaxing full-body massage using long, flowing strokes"
      duration := 60, price := 80, category := "massage", is_active := true }
    monBooking1000 540 1200
    (by decide) (by decide) (by decide) (by decide) (by decide) (by decide)
    (by decide) (by decide) (by decide) (Or.inl (by decide))

/-- C3: the claim says `OutsideHours` is returned exactly when the weekday
is closed, the start is before opening, or start plus duration passes
closing - in particular Monday 19:30 with a 60-minute service must be
rejected.  The code only tests `open ≤ start ≤ close` and ignores the
duration: the Monday 19:30 request (minute 1170, Swedish Massage, ends
20:30 past the 20:00 close) is not rejected as outside hours - it is
admitted. -/
theorem C3_late_request_not_outside_hours :
    (create_booking defaultServices [] 0 sampleUuidHex (monReq 1170)).1 ≠
      AdmitResult.outsideHours ∧
    (create_booking defaultServices [] 0 sampleUuidHex
        (monReq 1170)).1.isBooked = true ∧
    business_hours (weekdayOf 4) = some (540, 1200) ∧
    1200 < 1170 + 60 := by
  decide

/-- C4: the claim says the slot listing omits a candidate exactly when its
half-open interval intersects a non-cancelled booking's interval.  Concrete
run: the system itself admitted a confirmed Monday 10:05-11:05 booking
(minute 605, duration 60); the 10:00 candidate (minute 600) for a 60-minute
service overlaps it under the half-open test, yet `get_available_slots`
still lists 10:00.  (The bookings query's date filter matches no stored
row - stored appointment datetimes are compared against the bare date,
which binds as midnight - so `booked_times` is empty; moreover, even with a
date match, the 15-minute-grid membership test steps from the booking's
start 10:05 through {10:05, 10:20, 10:35, 10:50} and from the candidate's
start through {10:00, 10:15, 10:30, 10:45}, which never meet, so the
off-grid overlap would escape either way.) -/
theorem C4_overlapping_slot_listed :
    ledgerWith1005.map
        (fun b => (b.appointment_date / 1440, b.appointment_time,
                   b.service_duration, b.status))
      = [(4, 605, 60, BStatus.confirmed)] ∧
    ((get_available_slots defaultServices ledgerWith1005 4
        "Swedish Massage").getD []).contains 600 = true ∧
    (600 < 605 + 60 ∧ 605 < 600 + 60) := by
  decide

/-- C5 counterexample: the claim says slots are spaced by the generator's
granularity of 15 minutes.  On Monday (open 09:00 = 540) with the
60-minute Swedish Massage and no bookings, the first two listed slots are
09:00 and 09:30, and the 15-minute grid point 09:15 (minute 555) is absent
although it lies within [open, close - duration]. -/
theorem C5_counterexample :
    ((get_available_slots defaultServices [] 4 "Swedish Massage").getD
        []).take 2 = [540, 570] ∧
    ((get_available_slots defaultServices [] 4 "Swedish Massage").getD
        []).contains 555 = false ∧
    540 + 15 = 555 ∧ 540 ≤ 555 ∧ 555 + 60 ≤ 1200 := by
  decide

/-- C5 amended: for every service and date (every weekday is open), the
slot listing computed with no existing bookings is ascending with no
duplicates, spaced by `granularity + buffer` = 15 + 15 = 30 minutes (not by
the bare 15-minute granularity), and consists of exactly the 30-minute grid
points from opening whose service interval ends by closing - in particular
every slot lies in [open, close - duration] and the sequence is contiguous
on the 30-minute grid.  (`close + duration < 1440` keeps the source's
midnight-wrapping time arithmetic away; every configured close is at most
20:00, so this holds for any service shorter than 4 hours.) -/
theorem C5_slots_spaced_thirty (services : List Service) (d : Nat)
    (service_name : String) (sv : Service) (o c : Nat)
    (hsv : findService services service_name = some sv)
    (hbh : business_hours (weekdayOf d) = some (o, c))
    (hnw : c + sv.duration < 1440) :
    ∃ slots, get_available_slots services [] d service_name = some slots ∧
      List.Chain' (fun a b => b = a + 30) slots ∧
      List.Pairwise (· < ·) slots ∧
      (∀ t, t ∈ slots ↔ ∃ k, t = o + 30 * k ∧ t + sv.duration ≤ c) := by
  refine ⟨slotLoop o c sv.duration (bookedTimes [] d), ?_, ?_, ?_, ?_⟩
  · simp [get_available_slots, hsv, hbh]
  · have : bookedTimes [] d = [] := rfl
    rw [this, slotLoop]
    have h := slotLoopAux_chain c sv.duration hnw (c + 1) o
    simpa [buffer_time] using h
  · have : bookedTimes [] d = [] := rfl
    rw [this, slotLoop]
    rw [← List.chain'_iff_pairwise]
    refine List.Chain'.imp (fun a b h => ?_)
      (slotLoopAux_chain c sv.duration hnw (c + 1) o)
    simp [buffer_time] at h
    omega
  · intro t
    have : bookedTimes [] d = [] := rfl
    rw [this, slotLoop]
    exact slotLoopAux_mem c sv.duration hnw (c + 1) o (by omega) t

/-- Witness for C5's amended statement: Monday, Swedish Massage (60
minutes), empty ledger. -/
theorem C5_witness :
    ∃ slots,
      get_available_slots defaultServices [] 4 "Swedish Massage" =
        some slots ∧
      List.Chain' (fun a b => b = a + 30) slots ∧
      List.Pairwise (· < ·) slots ∧
      (∀ t, t ∈ slots ↔ ∃ k, t = 540 + 30 * k ∧ t + 60 ≤ 1200) :=
  C5_slots_spaced_thirty defaultServices 4 "Swedish Massage"
    { name := "Swedish Massage"
      description := "Relaxing full-body massage using long, flowing strokes"
      duration := 60, price := 80, category := "massage", is_active := true }
    540 1200 (by decide) (by decide) (by decide)

/-- C6: the claim says that after any sequence of sequential admits from
the empty ledger, no two pending-or-confirmed bookings on the same date
overlap, and in particular that resubmitting an identical request after a
success cannot create a second confirmed booking.  Both fail.  Serially
admitting Monday 10:00-11:00 and then Monday 10:30-11:30 from the empty
ledger yields two confirmed bookings on the same date with overlapping
half-open intervals; and resubmitting the identical 10:00-11:00 request
after its success yields two identical confirmed bookings. -/
theorem C6_overlap_invariant_violated :
    ((create_booking defaultServices ledgerWith1000 0 sampleUuidHex
        (monReq 630)).2.map
        (fun b => (b.appointment_date / 1440, b.appointment_time,
                   b.service_duration, b.status)))
      = [(4, 600, 60, BStatus.confirmed), (4, 630, 60, BStatus.confirmed)] ∧
    (600 < 630 + 60 ∧ 630 < 600 + 60) ∧
    ((create_booking defaultServices ledgerWith1000 0 sampleUuidHex
        (monReq 600)).2.map
        (fun b => (b.appointment_date / 1440, b.appointment_time, b.status)))
      = [(4, 600, BStatus.confirmed), (4, 600, BStatus.confirmed)] := by
  decide

/-- C7: every successful admit inserts a booking with status `confirmed`
and generates a confirmation code of (at least) 8 case-insensitive
alphanumeric characters - here exactly 8 uppercase hexadecimal characters,
`str(uuid4())[:8].upper()` - and the response reports that status and that
code.  `u` is the UUID's digit entropy: 32 digits, each below 16, of which
the code uses the first 8. -/
theorem C7_confirmed_with_code (services : List Service)
    (ledger : List Booking) (now : Nat) (u : List Nat) (req : BookingRequest)
    (sv : Service) (o c : Nat)
    (hsv : findService services req.service_name = some sv)
    (hfut : now < req.appointment_date * 1440 + req.appointment_time)
    (hbh : business_hours (weekdayOf req.appointment_date) = some (o, c))
    (ho : o ≤ req.appointment_time) (hc : req.appointment_time ≤ c)
    (hwf : ∀ x ∈ ledger, x.appointment_date % 1440 ≠ 0)
    (hu : ∀ x ∈ u, x < 16) (h8 : 8 ≤ u.length) :
    (create_booking services ledger now u req).1.respStatus =
      some .confirmed ∧
    (create_booking services ledger now u req).1.respCode =
      some (confirmationCode u) ∧
    (confirmationCode u).length = 8 ∧
    ((confirmationCode u).toList.all Char.isAlphanum) = true ∧
    (create_booking services ledger now u req).2.map Booking.status =
      ledger.map Booking.status ++ [.confirmed] := by
  rw [admit_success services ledger now u req sv o c hsv hfut hbh ho hc hwf]
  exact ⟨rfl, rfl, confirmationCode_length u h8, confirmationCode_alnum u hu,
    by simp⟩

/-- Witness for C7: the Monday 10:00 Swedish Massage admit against the
empty ledger, with the sample UUID entropy. -/
theorem C7_witness :
    (create_booking defaultServices [] 0 sampleUuidHex
        (monReq 600)).1.respStatus = some .confirmed ∧
    (create_booking defaultServices [] 0 sampleUuidHex
        (monReq 600)).1.respCode = some (confirmationCode sampleUuidHex) ∧
    (confirmationCode sampleUuidHex).length = 8 ∧
    ((confirmationCode sampleUuidHex).toList.all Char.isAlphanum) = true ∧
    (create_booking defaultServices [] 0 sampleUuidHex
        (monReq 600)).2.map Booking.status = [].map Booking.status ++
      [.confirmed] :=
  C7_confirmed_with_code defaultServices [] 0 sampleUuidHex (monReq 600)
    { name := "Swedish Massage"
      description := "Relaxing full-body massage using long, flowing strokes"
      duration := 60, price := 80, category := "massage", is_active := true }
    540 1200
    (by decide) (by decide) (by decide) (by decide) (by decide) (by decide)
    (by decide) (by decide)

/-- C8: transitioning a terminal booking (completed or cancelled) back to
`confirmed` returns `InvalidTransition`, and no operation of the system
moves a terminal-state booking back to `confirmed`.  The repository has no
lifecycle operation at all, so `update_status` is modelled from the spec
(section 4.5); the only embedded mutator, `create_booking`, keeps every
pre-existing row - status included - in the ledger. -/
theorem C8_terminal_locked :
    (∀ (ledger : List Booking) (bid : Nat) (b : Booking),
        (ledger.find? fun x => decide (x.id = bid)) = some b →
        b.status = .completed ∨ b.status = .cancelled →
        update_status ledger bid .confirmed = .invalidTransition) ∧
    (∀ (services : List Service) (ledger : List Booking) (now : Nat)
        (u : List Nat) (req : BookingRequest) (b : Booking), b ∈ ledger →
        b ∈ (create_booking services ledger now u req).2) := by
  constructor
  · intro ledger bid b hfind hterm
    unfold update_status
    rw [hfind]
    have hallow : allowed_transition b.status .confirmed = false := by
      rcases hterm with h | h <;> rw [h] <;> rfl
    simp [hallow]
  · intro services ledger now u req b hb
    unfold create_booking
    cases findService services req.service_name with
    | none => exact hb
    | some sv =>
      simp only []
      split
      · exact hb
      · cases business_hours (weekdayOf req.appointment_date) with
        | none => exact hb
        | some oc =>
          simp only []
          split
          · exact hb
          · cases hfind : ledger.find? _ with
            | some _ => simpa [hfind] using hb
            | none => simp [hfind]; exact Or.inl hb

/-- Witness for C8: a completed Monday 13:00 booking cannot be set back to
`confirmed`, and an unrelated admit leaves it in the ledger untouched. -/
theorem C8_witness :
    update_status [completedBooking] 1 .confirmed = .invalidTransition ∧
    completedBooking ∈ (create_booking defaultServices [completedBooking] 0
      sampleUuidHex (monReq 600)).2 :=
  ⟨C8_terminal_locked.1 [completedBooking] 1 completedBooking (by decide)
      (Or.inl (by decide)),
   C8_terminal_locked.2 defaultServices [completedBooking] 0 sampleUuidHex
      (monReq 600) completedBooking (by decide)⟩

/-- C9: the claim says that of N admit requests for overlapping intervals
on the same date, exactly one succeeds and the rest receive `Conflict`, and
that no observable interleaving leaves two confirmed overlapping bookings.
Already the fully serialized interleaving refutes this: admitting Monday
10:00, 10:15 and 10:30 (60 minutes each) one after another from the empty
ledger succeeds all three times, nobody receives `Conflict`, and the final
ledger holds three confirmed pairwise-overlapping bookings for the date. -/
theorem C9_serial_overlap_all_admitted :
    (create_booking defaultServices [] 0 sampleUuidHex
        (monReq 600)).1.isBooked = true ∧
    (create_booking defaultServices ledgerWith1000 0 sampleUuidHex
        (monReq 615)).1.isBooked = true ∧
    (create_booking defaultServices ledgerTwoOverlaps 0 sampleUuidHex
        (monReq 630)).1.isBooked = true ∧
    (create_booking defaultServices ledgerWith1000 0 sampleUuidHex
        (monReq 615)).1.isConflict = false ∧
    (create_booking defaultServices ledgerTwoOverlaps 0 sampleUuidHex
        (monReq 630)).1.isConflict = false ∧
    ledgerThreeOverlaps.map
        (fun b => (b.appointment_date / 1440, b.appointment_time, b.status))
      = [(4, 600, BStatus.confirmed), (4, 615, BStatus.confirmed),
         (4, 630, BStatus.confirmed)] ∧
    (600 < 615 + 60 ∧ 615 < 600 + 60) ∧
    (615 < 630 + 60 ∧ 630 < 615 + 60) ∧
    (600 < 630 + 60 ∧ 630 < 600 + 60) := by
  decide

/-- C10: the confirmation code is never persisted: the `bookings` row that
a successful `create_booking` inserts is independent of the generated code
(the `Booking` model has no confirmation-code column), and the
`get_booking` projection - the nine-field `GetBookingView`, which carries
no confirmation code - is likewise independent of it.  Stated as: running
the admit with any two different UUID entropies leaves identical ledgers
and identical `get_booking` answers for every booking id. -/
theorem C10_code_not_persisted (services : List Service)
    (ledger : List Booking) (now : Nat) (u1 u2 : List Nat)
    (req : BookingRequest) (bid : Nat) :
    (create_booking services ledger now u1 req).2 =
      (create_booking services ledger now u2 req).2 ∧
    get_booking (create_booking services ledger now u1 req).2 bid =
      get_booking (create_booking services ledger now u2 req).2 bid := by
  have h2 : (create_booking services ledger now u1 req).2 =
      (create_booking services ledger now u2 req).2 := by
    unfold create_booking
    cases findService services req.service_name with
    | none => rfl
    | some sv =>
      simp only []
      split
      · rfl
      · cases business_hours (weekdayOf req.appointment_date) with
        | none => rfl
        | some oc =>
          simp only []
          split
          · rfl
          · cases hfind : ledger.find? _ with
            | some _ => simp [hfind]
            | none => simp [hfind]
  exact ⟨h2, by rw [h2]⟩

end Spa
